import Mathlib

/-!
Verification of the Conrad Coach v3 analytics engine
(`src/attached_assets/conrad_coach_v3_1770721379303.py`).

The Python functions are shallowly embedded: floats become exact rationals
(ℚ), Python ints become ℤ, `None` becomes `Option.none`, and an uncaught
exception (e.g. a `KeyError` on a missing dictionary key) becomes an
`Option.none` result of the whole computation.  Python's built-in `round`
rounds halves to the nearest even integer, embedded below as `rnd`.
-/

namespace ConradCoach

/-- Python `round`: round to nearest integer, ties to the even neighbour. -/
def rnd (q : ℚ) : ℤ :=
  let f := q.floor
  let frac := q - f
  if frac < 1/2 then f
  else if 1/2 < frac then f + 1
  else if f % 2 = 0 then f else f + 1

/-- The module-level `KCAL_PER_UNIT` dictionary; a key absent from the
dictionary (which in Python raises `KeyError` on subscript) is `none`. -/
def KCAL_PER_UNIT (key : String) : Option ℚ :=
  if key = "oats_g" then some 4
  else if key = "dextrin_g" then some (387/100)
  else if key = "whey_g" then some (376/100)
  else if key = "mct_g" then some 7
  else if key = "flax_g" then some (324/100)
  else if key = "bananas" then some 104
  else if key = "eggs" then some (155/2)
  else if key = "yogurt_cups" then some (299/2)
  else none

/-- The `cardio_fuel` sub-dictionary of the baseline. -/
structure CardioFuel where
  threshold_min : ℤ
  add_carbs_g : ℤ
  preferred_source : String
deriving DecidableEq

/-- The parts of the `BASELINE` configuration dictionary the analytics use. -/
structure Baseline where
  calories : ℚ
  protein_g : ℚ
  carbs_g : ℚ
  fat_g : ℚ
  adjust_priority : List String
  cardio_fuel : CardioFuel
deriving DecidableEq

/-- The module-level `BASELINE` constant. -/
def BASELINE : Baseline :=
  { calories := 26952/10
    protein_g := 1739/10
    carbs_g := 3309/10
    fat_g := 544/10
    adjust_priority :=
      ["mct_g", "dextrin_g", "oats_g", "bananas", "eggs", "flax_g", "whey_g", "yogurt_cups"]
    cardio_fuel :=
      { threshold_min := 45, add_carbs_g := 25, preferred_source := "dextrin_g" } }

/-- The fields of a `DailyEntry` row that the analytics functions read
(`morning_weight_lb` is required; the rest are optional). -/
structure Record where
  morning_weight_lb : ℚ
  waist_in : Option ℚ
  bf_morning_pct : Option ℚ
  deload_week : Option Bool
  performance_note : Option String
  adherence_0to1 : Option ℚ
deriving DecidableEq

/-- The derived `lean_mass_lb` column of `df_entries`: defined exactly when
`bf_morning_pct` is, as `morning_weight_lb * (1 - bf/100)`. -/
def lean_mass (r : Record) : Option ℚ :=
  r.bf_morning_pct.map fun bf => r.morning_weight_lb * (1 - bf / 100)

/-- `avg3`: keep the non-`None` readings; unless all three are present the
average is `None`, otherwise it is their sum divided by 3. -/
def avg3 (a b c : Option ℚ) : Option ℚ :=
  let vals := [a, b, c].filterMap id
  if vals.length ≠ 3 then none
  else some (vals.sum / 3)

/-- `suggest_calorie_adjustment`: the piecewise weekly-delta → kcal/day map. -/
def suggest_calorie_adjustment (wk_gain_lb : ℚ) : ℤ :=
  if wk_gain_lb < 10/100 then 100
  else if 10/100 ≤ wk_gain_lb ∧ wk_gain_lb < 25/100 then 75
  else if 25/100 ≤ wk_gain_lb ∧ wk_gain_lb ≤ 50/100 then 0
  else if 50/100 < wk_gain_lb ∧ wk_gain_lb ≤ 75/100 then -50
  else -100

/-- C1: `suggest_calorie_adjustment` realises exactly the banded step
function of the spec (+100 below 0.10, +75 on [0.10, 0.25), 0 on
[0.25, 0.50], −50 on (0.50, 0.75], −100 above 0.75), and takes the
specified values at the seven boundary probes 0.09, 0.10, 0.25, 0.50,
0.51, 0.75, 0.76. -/
theorem suggest_calorie_adjustment_bands (d : ℚ) :
    (d < 10/100 → suggest_calorie_adjustment d = 100) ∧
    (10/100 ≤ d → d < 25/100 → suggest_calorie_adjustment d = 75) ∧
    (25/100 ≤ d → d ≤ 50/100 → suggest_calorie_adjustment d = 0) ∧
    (50/100 < d → d ≤ 75/100 → suggest_calorie_adjustment d = -50) ∧
    (75/100 < d → suggest_calorie_adjustment d = -100) ∧
    suggest_calorie_adjustment (9/100) = 100 ∧
    suggest_calorie_adjustment (10/100) = 75 ∧
    suggest_calorie_adjustment (25/100) = 0 ∧
    suggest_calorie_adjustment (50/100) = 0 ∧
    suggest_calorie_adjustment (51/100) = -50 ∧
    suggest_calorie_adjustment (75/100) = -50 ∧
    suggest_calorie_adjustment (76/100) = -100 := by
  refine ⟨?_, ?_, ?_, ?_, ?_, ?_, ?_, ?_, ?_, ?_, ?_, ?_⟩
  · intro h
    unfold suggest_calorie_adjustment
    rw [if_pos h]
  · intro h1 h2
    unfold suggest_calorie_adjustment
    rw [if_neg (not_lt.mpr h1), if_pos ⟨h1, h2⟩]
  · intro h1 h2
    unfold suggest_calorie_adjustment
    rw [if_neg (by linarith), if_neg fun hc => absurd hc.2 (not_lt.mpr h1),
      if_pos ⟨h1, h2⟩]
  · intro h1 h2
    unfold suggest_calorie_adjustment
    rw [if_neg (by linarith), if_neg fun hc => by linarith [hc.2],
      if_neg fun hc => by linarith [hc.2], if_pos ⟨h1, h2⟩]
  · intro h1
    unfold suggest_calorie_adjustment
    rw [if_neg (by linarith), if_neg fun hc => by linarith [hc.2],
      if_neg fun hc => by linarith [hc.2], if_neg fun hc => by linarith [hc.2]]
  all_goals norm_num [suggest_calorie_adjustment]

theorem suggest_calorie_adjustment_bands_witness :
    suggest_calorie_adjustment (5/100) = 100 :=
  (suggest_calorie_adjustment_bands (5/100)).1 (by norm_num)

/-- C8: `avg3` is all-or-nothing: all three readings present gives their
arithmetic mean, any missing reading gives `none`; in particular
(18, none, 19) ↦ none and (18, 18.5, 19) ↦ 18.5. -/
theorem avg3_all_or_nothing :
    (∀ x y z : ℚ, avg3 (some x) (some y) (some z) = some ((x + y + z) / 3)) ∧
    (∀ a b c : Option ℚ, a = none ∨ b = none ∨ c = none → avg3 a b c = none) ∧
    avg3 (some 18) none (some 19) = none ∧
    avg3 (some 18) (some (37/2)) (some 19) = some (37/2) := by
  refine ⟨?_, ?_, by norm_num [avg3, List.filterMap_cons],
    by norm_num [avg3, List.filterMap_cons]⟩
  · intro x y z
    simp [avg3]
    ring
  · intro a b c h
    rcases a with _ | x <;> rcases b with _ | y <;> rcases c with _ | z <;>
      simp [avg3] at h ⊢

theorem avg3_all_or_nothing_witness :
    avg3 none (some 1) (some 2) = none :=
  avg3_all_or_nothing.2.1 none (some 1) (some 2) (Or.inl rfl)

/-! Evaluation lemmas for `rnd`. -/

lemma rat_floor_eq {q : ℚ} {n : ℤ} (h1 : (n : ℚ) ≤ q) (h2 : q < (n : ℚ) + 1) :
    q.floor = n := by
  have ha : n ≤ q.floor := Rat.le_floor.mpr h1
  have hb : ¬ (n + 1 ≤ q.floor) := by
    intro h
    have := Rat.le_floor.mp h
    push_cast at this
    linarith
  omega

lemma rnd_eq_of_abs_lt {q : ℚ} (n : ℤ) (h : |q - (n : ℚ)| < 1/2) : rnd q = n := by
  rw [abs_lt] at h
  obtain ⟨hl, hr⟩ := h
  rcases le_or_lt (n : ℚ) q with hc | hc
  · have hf : q.floor = n := rat_floor_eq hc (by linarith)
    simp only [rnd, hf]
    rw [if_pos (by linarith)]
  · have hf : q.floor = n - 1 := by
      apply rat_floor_eq <;> push_cast <;> linarith
    simp only [rnd, hf]
    rw [if_neg (by push_cast; linarith), if_pos (by push_cast; linarith)]
    omega

lemma rnd_tie (n : ℤ) : rnd ((n : ℚ) + 1/2) = if n % 2 = 0 then n else n + 1 := by
  have hf : ((n : ℚ) + 1/2).floor = n := rat_floor_eq (by linarith) (by linarith)
  have hfr : (n : ℚ) + 1/2 - (n : ℚ) = 1/2 := by ring
  simp only [rnd, hf, hfr]
  rw [if_neg (by norm_num), if_neg (by norm_num)]

/-! TrendAggregator. -/

/-- The pandas `series.rolling(7, min_periods=7).mean()` used by
`weekly_delta_7day_avg`: position `i` holds the mean of the 7 values ending
at `i`, or `NaN` (here `none`) for the first six positions. -/
def rolling7mean (s : List ℚ) : List (Option ℚ) :=
  (List.range s.length).map fun i =>
    if i + 1 < 7 then none
    else some (((s.take (i+1)).drop (i+1-7)).sum / 7)

/-- `weekly_delta_7day_avg`: `None` for fewer than 14 points, otherwise
`w7.iloc[-1] - w7.iloc[-8]` of the rolling mean (with the code's
`pd.isna` guards on both operands). -/
def weekly_delta_7day_avg (s : List ℚ) : Option ℚ :=
  if s.length < 14 then none
  else
    let w7 := rolling7mean s
    match w7.getD (s.length - 1) none, w7.getD (s.length - 8) none with
    | some last, some prev => some (last - prev)
    | _, _ => none

lemma rolling7mean_getD {s : List ℚ} {i : ℕ} (hi : i < s.length) :
    (rolling7mean s).getD i none =
      if i + 1 < 7 then none
      else some (((s.take (i+1)).drop (i+1-7)).sum / 7) := by
  unfold rolling7mean
  rw [List.getD_eq_getElem?_getD, List.getElem?_map, List.getElem?_range hi]
  rfl

lemma weekly_delta_eq {s : List ℚ} (h : 14 ≤ s.length) :
    weekly_delta_7day_avg s =
      some ((s.drop (s.length - 7)).sum / 7 -
        ((s.drop (s.length - 14)).take 7).sum / 7) := by
  unfold weekly_delta_7day_avg
  rw [if_neg (by omega)]
  have g1 := rolling7mean_getD (s := s) (i := s.length - 1) (by omega)
  have g2 := rolling7mean_getD (s := s) (i := s.length - 8) (by omega)
  rw [if_neg (by omega)] at g1
  rw [if_neg (by omega)] at g2
  simp only [g1, g2]
  have e1 : (s.take (s.length - 1 + 1)).drop (s.length - 1 + 1 - 7) =
      s.drop (s.length - 7) := by
    have hx : s.length - 1 + 1 = s.length := by omega
    rw [hx, List.take_length]
  have e2 : (s.take (s.length - 8 + 1)).drop (s.length - 8 + 1 - 7) =
      (s.drop (s.length - 14)).take 7 := by
    rw [List.take_drop]
    have hx : s.length - 8 + 1 = s.length - 14 + 7 := by omega
    have hy : s.length - 8 + 1 - 7 = s.length - 14 := by omega
    rw [hy, hx]
  rw [e1, e2]

/-- C7: `weekly_delta_7day_avg` returns `none` (an explicit no-value signal,
never a number) on series of fewer than 14 points; on a series of at least
14 points it returns the 7-day trailing mean over the last 7 values minus
the 7-day trailing mean over the 7 values ending 7 days earlier. -/
theorem weekly_delta_7day_avg_spec (s : List ℚ) :
    (s.length < 14 → weekly_delta_7day_avg s = none) ∧
    (14 ≤ s.length →
      weekly_delta_7day_avg s =
        some ((s.drop (s.length - 7)).sum / 7 -
          ((s.drop (s.length - 14)).take 7).sum / 7)) := by
  constructor
  · intro h
    unfold weekly_delta_7day_avg
    rw [if_pos h]
  · exact weekly_delta_eq

theorem weekly_delta_7day_avg_spec_witness :
    weekly_delta_7day_avg [0, 1, 2, 3, 4, 5, 6, 7, 8, 9, 10, 11, 12, 13] =
      some 7 ∧
    weekly_delta_7day_avg [0, 1, 2, 3, 4, 5, 6, 7, 8, 9, 10, 11, 12] = none := by
  constructor
  · have h := (weekly_delta_7day_avg_spec
      [0, 1, 2, 3, 4, 5, 6, 7, 8, 9, 10, 11, 12, 13]).2 (by norm_num)
    rw [h]
    norm_num
  · exact (weekly_delta_7day_avg_spec
      [0, 1, 2, 3, 4, 5, 6, 7, 8, 9, 10, 11, 12]).1 (by norm_num)

/-! BodyCompositionEstimator. -/

/-- `e.tail(14)`: the trailing 14-day window of a record series. -/
def tail14 (e : List Record) : List Record := e.drop (e.length - 14)

/-- `lean_gain_ratio_14d`: over `e.tail(14)` restricted to rows with a
defined lean mass, `None` with fewer than 2 such rows or when
`|Δweight| < 0.1`, else `Δlean / Δweight` between the first and last such
rows.  (The code's `"lean_mass_lb" not in e.columns` guard cannot fire
here: the derived column exists whenever entries do, since `bf_morning_pct`
is a `DailyEntry` field.) -/
def lean_gain_ratio_14d (e : List Record) : Option ℚ :=
  let recent := (tail14 e).filter fun r => (lean_mass r).isSome
  if recent.length < 2 then none
  else
    let w0 := (recent.head?.map Record.morning_weight_lb).getD 0
    let w1 := (recent.getLast?.map Record.morning_weight_lb).getD 0
    let lm0 := (recent.head?.bind lean_mass).getD 0
    let lm1 := (recent.getLast?.bind lean_mass).getD 0
    let dw := w1 - w0
    let dlm := lm1 - lm0
    if |dw| < 1/10 then none
    else some (dlm / dw)

lemma lean_gain_ratio_cases (e : List Record) :
    (((tail14 e).filter fun r => (lean_mass r).isSome).length < 2 →
      lean_gain_ratio_14d e = none) ∧
    (∀ r0 r1 l0 l1,
      2 ≤ ((tail14 e).filter fun r => (lean_mass r).isSome).length →
      ((tail14 e).filter fun r => (lean_mass r).isSome).head? = some r0 →
      ((tail14 e).filter fun r => (lean_mass r).isSome).getLast? = some r1 →
      lean_mass r0 = some l0 → lean_mass r1 = some l1 →
      (|r1.morning_weight_lb - r0.morning_weight_lb| < 1/10 →
        lean_gain_ratio_14d e = none) ∧
      (1/10 ≤ |r1.morning_weight_lb - r0.morning_weight_lb| →
        lean_gain_ratio_14d e =
          some ((l1 - l0) /
            (r1.morning_weight_lb - r0.morning_weight_lb)))) := by
  constructor
  · intro h
    simp only [lean_gain_ratio_14d]
    rw [if_pos h]
  · intro r0 r1 l0 l1 h2 hh hl hm0 hm1
    simp only [lean_gain_ratio_14d, hh, hl, hm0, hm1, Option.map_some',
      Option.some_bind, Option.getD_some]
    rw [if_neg (by omega)]
    constructor
    · intro h
      rw [if_pos h]
    · intro h
      rw [if_neg (not_lt.mpr h)]

/-- C5: `lean_gain_ratio_14d` over the most recent ≤14 records restricted
to those with a defined lean mass returns `none` when fewer than 2 such
points exist or when `|Δweight| < 0.1` lb, and otherwise returns exactly
`(leanMass_last − leanMass_first) / (weight_last − weight_first)`. -/
theorem lean_gain_ratio_14d_spec (e : List Record) :
    (((tail14 e).filter fun r => (lean_mass r).isSome).length < 2 →
      lean_gain_ratio_14d e = none) ∧
    (∀ r0 r1 l0 l1,
      2 ≤ ((tail14 e).filter fun r => (lean_mass r).isSome).length →
      ((tail14 e).filter fun r => (lean_mass r).isSome).head? = some r0 →
      ((tail14 e).filter fun r => (lean_mass r).isSome).getLast? = some r1 →
      lean_mass r0 = some l0 → lean_mass r1 = some l1 →
      (|r1.morning_weight_lb - r0.morning_weight_lb| < 1/10 →
        lean_gain_ratio_14d e = none) ∧
      (1/10 ≤ |r1.morning_weight_lb - r0.morning_weight_lb| →
        lean_gain_ratio_14d e =
          some ((l1 - l0) /
            (r1.morning_weight_lb - r0.morning_weight_lb)))) :=
  lean_gain_ratio_cases e

theorem lean_gain_ratio_14d_spec_witness :
    lean_gain_ratio_14d
      [⟨100, none, some 20, none, none, none⟩,
       ⟨2001/20, none, some 20, none, none, none⟩] = none := by
  have h := ((lean_gain_ratio_14d_spec
      [⟨100, none, some 20, none, none, none⟩,
       ⟨2001/20, none, some 20, none, none, none⟩]).2
      ⟨100, none, some 20, none, none, none⟩
      ⟨2001/20, none, some 20, none, none, none⟩
      80 (2001/25)
      (by norm_num [tail14, lean_mass])
      (by norm_num [tail14, lean_mass])
      (by norm_num [tail14, lean_mass])
      (by norm_num [lean_mass])
      (by norm_num [lean_mass])).1
  exact h (by rw [abs_lt]; constructor <;> norm_num)

/-- The clamp applied in `report` before printing the ratio:
`max(-1.0, min(2.0, ratio))`. -/
def clamp_display (r : ℚ) : ℚ := max (-1) (min 2 r)

/-- The `ratio_disp` value produced in `report` (lines 608–612): `None`
when the analytic ratio is `None`, otherwise a clamped presentation copy;
the analytic `ratio` variable is never reassigned. -/
def report_ratio_disp (e : List Record) : Option ℚ :=
  (lean_gain_ratio_14d e).map clamp_display

lemma ratio3_example :
    lean_gain_ratio_14d
      [⟨100, none, some 50, none, none, none⟩,
       ⟨101, none, some (4800/101), none, none, none⟩] = some 3 := by
  have h := ((lean_gain_ratio_cases
    [⟨100, none, some 50, none, none, none⟩,
     ⟨101, none, some (4800/101), none, none, none⟩]).2
    ⟨100, none, some 50, none, none, none⟩
    ⟨101, none, some (4800/101), none, none, none⟩
    50 53
    (by norm_num [tail14, lean_mass])
    (by norm_num [tail14, lean_mass])
    (by norm_num [tail14, lean_mass])
    (by norm_num [lean_mass])
    (by norm_num [lean_mass])).2 (by norm_num)
  rw [h]
  norm_num

/-- C6: the value returned by `lean_gain_ratio_14d` is never clamped; the
report's display copy is `clamp_display` of it (confined to [−1, 2]), and
producing the display copy leaves the analytic value intact — witnessed by
a series whose analytic ratio is 3 (> 2) while the display shows 2. -/
theorem lean_gain_ratio_display_clamp_only :
    (∀ e r, lean_gain_ratio_14d e = some r →
      report_ratio_disp e = some (clamp_display r) ∧
      -1 ≤ clamp_display r ∧ clamp_display r ≤ 2) ∧
    (∃ e r, lean_gain_ratio_14d e = some r ∧ 2 < r ∧
      report_ratio_disp e = some 2) := by
  constructor
  · intro e r h
    refine ⟨by rw [report_ratio_disp, h, Option.map_some'], le_max_left _ _,
      max_le (by norm_num) (min_le_left _ _)⟩
  · refine ⟨_, 3, ratio3_example, by norm_num, ?_⟩
    rw [report_ratio_disp, ratio3_example, Option.map_some']
    norm_num [clamp_display]

theorem lean_gain_ratio_display_clamp_only_witness :
    report_ratio_disp
      [⟨100, none, some 50, none, none, none⟩,
       ⟨101, none, some (4800/101), none, none, none⟩] =
        some (clamp_display 3) ∧
    -1 ≤ clamp_display 3 ∧ clamp_display 3 ≤ 2 :=
  lean_gain_ratio_display_clamp_only.1 _ 3 ratio3_example

/-! Diagnoser. -/

/-- The `bad_words` tuple of `diagnose`. -/
def bad_words : List String := ["flat", "tired", "stalled", "no progress", "weak"]

/-- Python's `b in n` substring test. -/
def containsSub (n b : String) : Bool :=
  (List.range (n.toList.length + 1)).any fun i =>
    b.toList.isPrefixOf (n.toList.drop i)

/-- The trend cascade of `diagnose` after the two data-sufficiency gates:
first matching rule wins, evaluated on the trailing 14-day window. -/
def diagnose_trend (wk_gain : ℚ) (recent : List Record) : String :=
  let avg_adh :=
    (recent.map fun r => r.adherence_0to1.getD 1).sum / (recent.length : ℚ)
  let deload := recent.any fun r => r.deload_week.getD false
  let ws := recent.filterMap Record.waist_in
  let waist_change : Option ℚ :=
    if 2 ≤ ws.length then some (ws.getLast?.getD 0 - ws.head?.getD 0) else none
  let ls := recent.filterMap lean_mass
  let lean_change : Option ℚ :=
    if 2 ≤ ls.length then some (ls.getLast?.getD 0 - ls.head?.getD 0) else none
  let perf_notes := (recent.filterMap Record.performance_note).map String.toLower
  let perf_flat :=
    2 ≤ (perf_notes.filter fun n => bad_words.any fun b => containsSub n b).length
  let waist_rising : Bool :=
    match waist_change with
    | some w => decide (25/100 < w)
    | none => false
  let lean_drop : Bool :=
    match lean_change with
    | some lc => decide (lc < 0)
    | none => false
  if avg_adh < 9/10 then
    "Likely adherence/data-quality issue first (plan not executed consistently)."
  else if deload then
    if wk_gain < 10/100 then
      "Deload flagged. Weight not moving is acceptable; hold diet steady and reassess after deload."
    else
      "Deload flagged. Avoid training conclusions; reassess next week."
  else if 75/100 < wk_gain ∧ waist_rising then
    "Likely diet overshoot (gain too fast + waist rising). Reduce calories slightly."
  else if wk_gain < 10/100 ∧ perf_flat then
    "Likely diet/recovery undershoot (not gaining + performance flat). Add calories or reduce cardio/stress."
  else if (25/100 ≤ wk_gain ∧ wk_gain ≤ 50/100) ∧ perf_flat then
    "Diet likely adequate (weight trending right). Look at training variables and sleep."
  else if 25/100 < wk_gain ∧ lean_drop then
    "Weight up but estimated lean mass down (likely BIA noise or glycogen/hydration swing). Check hydration consistency + use 7-day averages."
  else
    "No clear red flags. Keep running the plan; watch 7-day averages."

/-- `diagnose`: the two data-sufficiency gates followed by the ordered
cascade on the trailing window. -/
def diagnose (e : List Record) : String :=
  if e.length < 14 then
    "Need at least ~14 days to diagnose trend vs noise."
  else
    match weekly_delta_7day_avg (e.map Record.morning_weight_lb) with
    | none => "Need enough data for 7-day rolling averages."
    | some wk_gain => diagnose_trend wk_gain (tail14 e)

/-- C2: whenever a series has at least 14 entries (so its weekly delta is
defined) and the mean adherence over the trailing 14-day window — missing
values counted as 1.0 — is below 0.9, `diagnose` returns the
adherence/data-quality verdict, whatever the deload flags, weekly delta,
waist change, lean-mass change, or performance notes: rule 2 of the
cascade preempts rules 3–7. -/
theorem diagnose_adherence_preempts (e : List Record)
    (h14 : 14 ≤ e.length)
    (hadh : ((tail14 e).map fun r => r.adherence_0to1.getD 1).sum /
      (((tail14 e).length : ℚ)) < 9/10) :
    diagnose e =
      "Likely adherence/data-quality issue first (plan not executed consistently)." := by
  have hlen : 14 ≤ (e.map Record.morning_weight_lb).length := by
    simpa using h14
  obtain ⟨v, hv⟩ : ∃ v,
      weekly_delta_7day_avg (e.map Record.morning_weight_lb) = some v :=
    ⟨_, weekly_delta_eq hlen⟩
  unfold diagnose
  rw [if_neg (by omega), hv]
  simp only [diagnose_trend]
  rw [if_pos hadh]

theorem diagnose_adherence_preempts_witness :
    diagnose (List.replicate 14
      ⟨185, none, none, none, none, some (17/20)⟩) =
      "Likely adherence/data-quality issue first (plan not executed consistently)." := by
  apply diagnose_adherence_preempts
  · rw [List.length_replicate]
  · norm_num [tail14, List.length_replicate, List.map_replicate,
      List.sum_replicate, smul_eq_mul]

/-! IngredientAllocator. -/

/-- Items counted in whole units (`bananas`, `eggs`, `yogurt_cups`). -/
def is_countable (item : String) : Bool :=
  item = "bananas" || item = "eggs" || item = "yogurt_cups"

/-- The body of `grams_for_kcal` once the `KCAL_PER_UNIT` lookup returned
density `k`: whole units for countable items, grams rounded to the nearest
5 g for mct/dextrin, to the nearest 10 g otherwise. -/
def gfk_core (item : String) (k : ℚ) (kcal : ℤ) : ℤ :=
  if is_countable item then rnd ((kcal : ℚ) / k)
  else if item = "mct_g" || item = "dextrin_g" then
    rnd ((rnd ((kcal : ℚ) / k) : ℚ) / 5) * 5
  else rnd ((rnd ((kcal : ℚ) / k) : ℚ) / 10) * 10

/-- `grams_for_kcal`: `none` models the uncaught `KeyError` raised by
`KCAL_PER_UNIT[item_key]` when the ingredient has no density entry. -/
def grams_for_kcal (item : String) (kcal : ℤ) : Option ℤ :=
  (KCAL_PER_UNIT item).map fun k => gfk_core item k kcal

/-- The protein levers skipped while `|remaining| <= 150`. -/
def is_protein_lever (item : String) : Bool :=
  item = "whey_g" || item = "yogurt_cups"

/-- Python's `item.endswith("_g")`: does the key name a gram-measured
item? -/
def ends_g (item : String) : Bool :=
  "_g".toList.isSuffixOf item.toList

/-- The quantity delta chosen for an item: `grams_for_kcal`, or — when that
rounds to zero — a forced minimal step (10 g for gram items, 1 unit
otherwise) signed like `remaining`. -/
def allocDelta (item : String) (k : ℚ) (remaining : ℤ) : ℤ :=
  if gfk_core item k remaining = 0 then
    (if ends_g item then 10 else 1) * (if remaining < 0 then -1 else 1)
  else gfk_core item k remaining

/-- `int(round(delta * KCAL_PER_UNIT[item]))`: the kcal actually achieved
by the rounded quantity. -/
def allocAchieved (item : String) (k : ℚ) (remaining : ℤ) : ℤ :=
  rnd ((allocDelta item k remaining : ℚ) * k)

/-- The allocation loop of `propose_adjustment`: break at `|remaining| <= 25`,
skip protein levers at `|remaining| <= 150`, otherwise append
`(item, delta, achieved)` and recurse on `remaining - achieved`; a missing
density entry aborts the whole loop (`KeyError`), giving `none`. -/
def allocGo : ℤ → List String → Option (List (String × ℤ × ℤ))
  | _, [] => some []
  | remaining, item :: rest =>
    if |remaining| ≤ 25 then some []
    else if is_protein_lever item ∧ |remaining| ≤ 150 then allocGo remaining rest
    else
      match KCAL_PER_UNIT item with
      | none => none
      | some k =>
        (allocGo (remaining - allocAchieved item k remaining) rest).map
          fun plan =>
            (item, allocDelta item k remaining,
              allocAchieved item k remaining) :: plan

/-- `propose_adjustment`: the empty plan for a zero kcal delta, else the
allocation loop over the baseline's priority list. -/
def propose_adjustment (kcal_change : ℤ) (baseline : Baseline) :
    Option (List (String × ℤ × ℤ)) :=
  if kcal_change = 0 then some []
  else allocGo kcal_change baseline.adjust_priority

/-- The `remaining` counter after the loop has worked through a prefix of
the priority list without breaking and without a density-lookup error. -/
def allocRemaining : ℤ → List String → Option ℤ
  | remaining, [] => some remaining
  | remaining, item :: rest =>
    if |remaining| ≤ 25 then none
    else if is_protein_lever item ∧ |remaining| ≤ 150 then
      allocRemaining remaining rest
    else
      match KCAL_PER_UNIT item with
      | none => none
      | some k => allocRemaining (remaining - allocAchieved item k remaining) rest

lemma protein_has_density {item : String} (h : is_protein_lever item = true) :
    (KCAL_PER_UNIT item).isSome := by
  have h' : item = "whey_g" ∨ item = "yogurt_cups" := by
    simpa [is_protein_lever] using h
  rcases h' with rfl | rfl <;> rfl

/-- C3: `propose_adjustment` returns the empty plan for kcal delta 0; and
at any loop step where `|remaining| ≤ 150` a protein lever (`whey_g` or
`yogurt_cups`) at the head is skipped — the loop continues on the tail
unchanged, so no entry for that ingredient is appended at such a step.
With a nonzero delta the whole allocation is exactly the loop, so the
returned plan only ever contains protein entries appended at steps with
`|remaining| > 150`. -/
theorem propose_adjustment_zero_and_protein_skip :
    (∀ b : Baseline, propose_adjustment 0 b = some []) ∧
    (∀ item r rest, is_protein_lever item = true → |r| ≤ 150 →
      allocGo r (item :: rest) = allocGo r rest) ∧
    (∀ delta b, delta ≠ 0 →
      propose_adjustment delta b = allocGo delta b.adjust_priority) := by
  refine ⟨?_, ?_, ?_⟩
  · intro b
    unfold propose_adjustment
    rw [if_pos rfl]
  · intro item r rest hp hr
    rcases le_or_lt |r| 25 with h25 | h25
    · have l1 : allocGo r (item :: rest) = some [] := by
        unfold allocGo
        rw [if_pos h25]
      have l2 : allocGo r rest = some [] := by
        rcases rest with _ | ⟨x, xs⟩
        · rfl
        · unfold allocGo
          rw [if_pos h25]
      rw [l1, l2]
    · conv_lhs => unfold allocGo
      rw [if_neg (not_le.mpr h25), if_pos ⟨hp, hr⟩]
  · intro delta b hd
    unfold propose_adjustment
    rw [if_neg hd]

theorem propose_adjustment_zero_and_protein_skip_witness :
    propose_adjustment 0 BASELINE = some [] ∧
    allocGo 100 ["whey_g", "mct_g"] = allocGo 100 ["mct_g"] :=
  ⟨propose_adjustment_zero_and_protein_skip.1 BASELINE,
   propose_adjustment_zero_and_protein_skip.2.1 "whey_g" 100 ["mct_g"]
     (by decide) (by decide)⟩

lemma allocGo_unknown_aborts :
    ∀ (pre : List String) (r0 r : ℤ), allocRemaining r0 pre = some r →
      25 < |r| → ∀ bad rest, KCAL_PER_UNIT bad = none →
      allocGo r0 (pre ++ bad :: rest) = none := by
  intro pre
  induction pre with
  | nil =>
    intro r0 r hrem hgt bad rest hbad
    obtain rfl : r0 = r := by simpa [allocRemaining] using hrem
    have hnp : is_protein_lever bad = false := by
      rcases h : is_protein_lever bad with _ | _
      · rfl
      · exact absurd (protein_has_density h) (by rw [hbad]; simp)
    rw [List.nil_append]
    unfold allocGo
    rw [if_neg (not_le.mpr hgt), if_neg (by simp [hnp]), hbad]
  | cons p ps ih =>
    intro r0 r hrem hgt bad rest hbad
    unfold allocRemaining at hrem
    by_cases h25 : |r0| ≤ 25
    · rw [if_pos h25] at hrem
      exact absurd hrem (by simp)
    · rw [if_neg h25] at hrem
      by_cases hskip : is_protein_lever p = true ∧ |r0| ≤ 150
      · rw [if_pos hskip] at hrem
        rw [List.cons_append]
        unfold allocGo
        rw [if_neg h25, if_pos hskip]
        exact ih r0 r hrem hgt bad rest hbad
      · rw [if_neg hskip] at hrem
        cases hk : KCAL_PER_UNIT p with
        | none =>
          rw [hk] at hrem
          exact absurd hrem (by simp)
        | some k =>
          rw [hk] at hrem
          have hrem' : allocRemaining (r0 - allocAchieved p k r0) ps = some r :=
            hrem
          rw [List.cons_append]
          unfold allocGo
          rw [if_neg h25, if_neg hskip, hk]
          show Option.map _
            (allocGo (r0 - allocAchieved p k r0) (ps ++ bad :: rest)) = none
          rw [ih _ r hrem' hgt bad rest hbad]
          rfl

/-- C4: if the priority list contains an ingredient with no
`KCAL_PER_UNIT` entry and the loop reaches it (the prefix before it is
worked through without breaking, leaving `|remaining| > 25`), the whole
allocation aborts with `none` — the embedded image of the uncaught
`KeyError` naming the unknown ingredient — instead of skipping it and
continuing. -/
theorem propose_adjustment_unknown_ingredient_aborts
    (b : Baseline) (pre : List String) (bad : String) (rest : List String)
    (delta r : ℤ)
    (hb : b.adjust_priority = pre ++ bad :: rest)
    (hd : delta ≠ 0)
    (hbad : KCAL_PER_UNIT bad = none)
    (hreach : allocRemaining delta pre = some r)
    (hr : 25 < |r|) :
    propose_adjustment delta b = none := by
  unfold propose_adjustment
  rw [if_neg hd, hb]
  exact allocGo_unknown_aborts pre delta r hreach hr bad rest hbad

theorem propose_adjustment_unknown_ingredient_aborts_witness :
    propose_adjustment 100
      { BASELINE with adjust_priority := ["chia_g"] } = none :=
  propose_adjustment_unknown_ingredient_aborts _ [] "chia_g" [] 100 100
    rfl (by decide) (by decide) rfl (by decide)

lemma allocGo_cons_step (item : String) (k : ℚ) (remaining : ℤ)
    (rest : List String)
    (h25 : ¬ |remaining| ≤ 25)
    (hskip : ¬ (is_protein_lever item = true ∧ |remaining| ≤ 150))
    (hk : KCAL_PER_UNIT item = some k) :
    allocGo remaining (item :: rest) =
      (allocGo (remaining - allocAchieved item k remaining) rest).map
        fun plan =>
          (item, allocDelta item k remaining,
            allocAchieved item k remaining) :: plan := by
  conv_lhs => unfold allocGo
  rw [if_neg h25, if_neg hskip, hk]

/-- C10: the allocator can emit a plan mixing positive and negative
quantity deltas: with priority `[bananas, eggs]` and kcal delta +30, the
rounded banana quantity is 0, so a minimal +1 banana (+104 kcal) is
forced, flipping `remaining` to −74, after which the egg entry adjusts in
the opposite direction (−1 egg, −78 kcal). -/
theorem propose_adjustment_sign_flip :
    ∃ (delta : ℤ) (b : Baseline) (plan : List (String × ℤ × ℤ)),
      propose_adjustment delta b = some plan ∧
      (∃ x ∈ plan, 0 < x.2.1) ∧ (∃ y ∈ plan, y.2.1 < 0) := by
  have hg1 : gfk_core "bananas" 104 30 = 0 := by
    unfold gfk_core
    rw [if_pos (by decide : is_countable "bananas" = true)]
    exact rnd_eq_of_abs_lt 0 (by rw [abs_lt]; constructor <;> norm_num)
  have hd1 : allocDelta "bananas" 104 30 = 1 := by
    unfold allocDelta
    rw [if_pos hg1]
    decide
  have ha1 : allocAchieved "bananas" 104 30 = 104 := by
    unfold allocAchieved
    rw [hd1]
    exact rnd_eq_of_abs_lt 104 (by rw [abs_lt]; constructor <;> norm_num)
  have hg2 : gfk_core "eggs" (155/2) (-74) = -1 := by
    unfold gfk_core
    rw [if_pos (by decide : is_countable "eggs" = true)]
    exact rnd_eq_of_abs_lt (-1) (by rw [abs_lt]; constructor <;> norm_num)
  have hd2 : allocDelta "eggs" (155/2) (-74) = -1 := by
    unfold allocDelta
    rw [if_neg (by rw [hg2]; decide), hg2]
  have ha2 : allocAchieved "eggs" (155/2) (-74) = -78 := by
    unfold allocAchieved
    rw [hd2]
    have hx : ((-1 : ℤ) : ℚ) * (155/2) = ((-78 : ℤ) : ℚ) + 1/2 := by
      push_cast
      ring
    rw [hx, rnd_tie]
    decide
  have step1 : allocGo 30 ["bananas", "eggs"] =
      (allocGo (-74) ["eggs"]).map fun plan => ("bananas", 1, 104) :: plan := by
    rw [allocGo_cons_step "bananas" 104 30 ["eggs"] (by decide) (by decide) rfl,
      ha1, hd1]
    norm_num
  have step2 : allocGo (-74) ["eggs"] = some [("eggs", -1, -78)] := by
    rw [allocGo_cons_step "eggs" (155/2) (-74) [] (by decide) (by decide) rfl,
      ha2, hd2]
    norm_num
    rfl
  refine ⟨30, { BASELINE with adjust_priority := ["bananas", "eggs"] },
    [("bananas", 1, 104), ("eggs", -1, -78)], ?_, ?_, ?_⟩
  · unfold propose_adjustment
    rw [if_neg (by decide)]
    show allocGo 30 ["bananas", "eggs"] = _
    rw [step1, step2]
    rfl
  · exact ⟨("bananas", 1, 104), by decide, by decide⟩
  · exact ⟨("eggs", -1, -78), by decide, by decide⟩

/-! CardioFuelGuard. -/

/-- `int(round(x/10)*10)`: round to the nearest 10 g. -/
def round10 (q : ℚ) : ℤ := rnd (q / 10) * 10

/-- The advisory f-string for an `oats_g` preferred source. -/
def oats_note (cm thr add oats : ℤ) : String :=
  s!"Cardio {cm}min > {thr} → add ~{add}g carbs: +{oats}g oats (or +{add}g dextrin)."

/-- The advisory f-string for the direct (dextrin) source. -/
def dextrin_note (cm thr add : ℤ) : String :=
  s!"Cardio {cm}min > {thr} → add +{add}g carbs: +{add}g dextrin."

/-- `cardio_fuel_note`: no advisory when cardio minutes are absent or at
most the threshold; otherwise the advisory for the configured preferred
source, converting to oats grams via the 0.67 ratio rounded to the
nearest 10 g. -/
def cardio_fuel_note : Option ℤ → Baseline → Option String
  | none, _ => none
  | some cm, b =>
    if b.cardio_fuel.threshold_min < cm then
      if b.cardio_fuel.preferred_source = "oats_g" then
        some (oats_note cm b.cardio_fuel.threshold_min b.cardio_fuel.add_carbs_g
          (round10 ((b.cardio_fuel.add_carbs_g : ℚ) / (67/100))))
      else
        some (dextrin_note cm b.cardio_fuel.threshold_min
          b.cardio_fuel.add_carbs_g)
    else none

/-- C9: with threshold 45 an advisory is returned exactly when cardio
minutes are present and strictly above 45 (absent minutes never trigger);
and with preferred source `oats_g` and a 25 g carb addition, the advised
oats grams are `round10 (25 / 0.67) = 40` — the addition divided by the
0.67 conversion ratio and rounded to the nearest 10 g. -/
theorem cardio_fuel_note_spec (b : Baseline) (cm : ℤ)
    (hthr : b.cardio_fuel.threshold_min = 45) :
    cardio_fuel_note none b = none ∧
    ((cardio_fuel_note (some cm) b).isSome ↔ 45 < cm) ∧
    (b.cardio_fuel.preferred_source = "oats_g" →
      b.cardio_fuel.add_carbs_g = 25 → 45 < cm →
      cardio_fuel_note (some cm) b = some (oats_note cm 45 25 40)) ∧
    round10 ((25 : ℚ) / (67/100)) = 40 := by
  have h40 : ∀ q : ℚ, q = 25 / (67/100) → round10 q = 40 := by
    intro q hq
    subst hq
    unfold round10
    have hx : (25 : ℚ) / (67/100) / 10 = 250/67 := by norm_num
    rw [hx, rnd_eq_of_abs_lt 4 (by rw [abs_lt]; constructor <;> norm_num)]
    decide
  refine ⟨rfl, ?_, ?_, h40 _ (by norm_num)⟩
  · simp only [cardio_fuel_note]
    rw [hthr]
    by_cases h : 45 < cm
    · rw [if_pos h]
      simp only [h, iff_true]
      split_ifs <;> rfl
    · rw [if_neg h]
      simp [h]
  · intro hsrc hadd hcm
    simp only [cardio_fuel_note]
    rw [hthr, if_pos hcm, if_pos hsrc, hadd,
      h40 _ (by push_cast; norm_num)]

theorem cardio_fuel_note_spec_witness :
    cardio_fuel_note (some 46)
      { BASELINE with cardio_fuel :=
        { threshold_min := 45, add_carbs_g := 25,
          preferred_source := "oats_g" } } =
      some (oats_note 46 45 25 40) ∧
    cardio_fuel_note (some 45)
      { BASELINE with cardio_fuel :=
        { threshold_min := 45, add_carbs_g := 25,
          preferred_source := "oats_g" } } = none := by
  constructor
  · exact (cardio_fuel_note_spec _ 46 rfl).2.2.1 rfl rfl (by decide)
  · rw [← Option.not_isSome_iff_eq_none]
    intro hs
    exact absurd ((cardio_fuel_note_spec _ 45 rfl).2.1.mp hs) (by decide)

end ConradCoach
